import Mathlib

/-!
Verification of the research-feed paper pipeline.

Shallow embedding of the repository's core: the `Paper` entity
(`src/paper.py`), the SQLite persistence contract (`src/database.py`),
the stage admission filters and per-item retry executors
(`src/modules/embedding_similarity.py`, `src/modules/llm_validation.py`,
`pipeline/src/modules/llm_scoring.py`, `src/modules/h_index_fetching.py`,
`src/modules/intro_extractor.py`).

Modelling conventions:
- Python `float` is modelled as `ℚ` (exact arithmetic; the pipeline's
  similarity scores and thresholds are ordinary finite decimals).
- Python `datetime` instants are modelled as abstract ticks `ℕ`;
  `isoformat`/`fromisoformat` round-trip a datetime exactly, so the
  serialization of an instant is modelled as the identity.
- Python `str` is `String`, `Optional[T]` is `Option T`,
  `List[T]` is `List T`, `int` is `ℤ`.
- Mutating methods on `Paper` become functions `Paper → ... → Paper`;
  `datetime.now()` at a mutation site becomes an explicit `now : ℕ`
  argument.
-/

/-- H-index data for a single author (`paper.py`, `AuthorHIndex`). -/
structure AuthorHIndex where
  name : String
  profile_url : Option String
  h_index : Option ℤ
  deriving Repr, DecidableEq

/-- The `Paper` dataclass of `src/paper.py`: one academic paper with all
metadata, per-stage status fields, stage result payloads, the append-only
error list and the bookkeeping timestamps. -/
structure Paper where
  id : String
  title : String
  authors : List String
  categories : List String
  abstract : String
  published_date : ℕ
  arxiv_url : Option String := none
  pdf_url : Option String := none
  latex_url : Option String := none
  scraper_status : String := "initial"
  intro_status : String := "not_extracted"
  errors : List String := []
  introduction_text : Option String := none
  intro_extraction_method : Option String := none
  tex_file_name : Option String := none
  embedding_status : String := "not_embedded"
  rlhf_score : Option ℚ := none
  weak_supervision_score : Option ℚ := none
  diffusion_reasoning_score : Option ℚ := none
  distributed_training_score : Option ℚ := none
  datasets_score : Option ℚ := none
  highest_similarity_topic : Option String := none
  llm_validation_status : String := "not_validated"
  rlhf_relevance : String := "not_validated"
  weak_supervision_relevance : String := "not_validated"
  diffusion_reasoning_relevance : String := "not_validated"
  distributed_training_relevance : String := "not_validated"
  datasets_relevance : String := "not_validated"
  rlhf_justification : String := "no_justification"
  weak_supervision_justification : String := "no_justification"
  diffusion_reasoning_justification : String := "no_justification"
  distributed_training_justification : String := "no_justification"
  datasets_justification : String := "no_justification"
  llm_score_status : String := "not_scored"
  summary : Option String := none
  novelty_score : Option String := none
  novelty_justification : Option String := none
  impact_score : Option String := none
  impact_justification : Option String := none
  recommendation_score : Option String := none
  recommendation_justification : Option String := none
  h_index_status : String := "not_fetched"
  semantic_scholar_url : Option String := none
  h_index_fetch_method : Option String := none
  total_authors : Option ℤ := none
  authors_found : Option ℤ := none
  highest_h_index : Option ℤ := none
  average_h_index : Option ℚ := none
  notable_authors_count : Option ℤ := none
  author_h_indexes : List AuthorHIndex := []
  created_at : ℕ := 0
  updated_at : ℕ := 0
  last_generated : Option String := none
  deriving Repr, DecidableEq

namespace Paper

/-- `Paper.add_error`: append an error message and bump `updated_at`. -/
def add_error (p : Paper) (error_message : String) (now : ℕ) : Paper :=
  { p with errors := p.errors ++ [error_message], updated_at := now }

/-- `Paper.update_scraper_status`. -/
def update_scraper_status (p : Paper) (new_status : String) (now : ℕ) : Paper :=
  { p with scraper_status := new_status, updated_at := now }

/-- `Paper.update_intro_status`. -/
def update_intro_status (p : Paper) (new_status : String) (now : ℕ) : Paper :=
  { p with intro_status := new_status, updated_at := now }

/-- `Paper.update_embedding_status`. -/
def update_embedding_status (p : Paper) (new_status : String) (now : ℕ) : Paper :=
  { p with embedding_status := new_status, updated_at := now }

/-- `Paper.update_llm_validation_status`. -/
def update_llm_validation_status (p : Paper) (new_status : String) (now : ℕ) : Paper :=
  { p with llm_validation_status := new_status, updated_at := now }

/-- `Paper.update_llm_score_status`. -/
def update_llm_score_status (p : Paper) (new_status : String) (now : ℕ) : Paper :=
  { p with llm_score_status := new_status, updated_at := now }

/-- `Paper.update_h_index_status`. -/
def update_h_index_status (p : Paper) (new_status : String) (now : ℕ) : Paper :=
  { p with h_index_status := new_status, updated_at := now }

/-- `Paper.is_successfully_scraped`. -/
def is_successfully_scraped (p : Paper) : Bool :=
  p.scraper_status == "successfully_scraped"

/-- `Paper.is_intro_successful`. -/
def is_intro_successful (p : Paper) : Bool :=
  p.intro_status == "intro_successful"

/-- `Paper.can_skip_intro_extraction`: the intro stage's skip predicate. -/
def can_skip_intro_extraction (p : Paper) : Bool :=
  p.intro_status ∈ ["intro_successful", "no_latex_source", "no_intro_found"]

/-- `Paper.is_embedding_completed`. -/
def is_embedding_completed (p : Paper) : Bool :=
  p.embedding_status == "completed"

/-- `Paper.is_llm_validation_completed`. -/
def is_llm_validation_completed (p : Paper) : Bool :=
  p.llm_validation_status == "completed"

/-- `Paper.can_skip_llm_validation`. -/
def can_skip_llm_validation (p : Paper) : Bool :=
  p.llm_validation_status ∈ ["completed", "failed"] || !p.is_embedding_completed

/-- `Paper.is_llm_score_completed`. -/
def is_llm_score_completed (p : Paper) : Bool :=
  p.llm_score_status == "completed"

/-- `Paper.can_skip_llm_scoring`. -/
def can_skip_llm_scoring (p : Paper) : Bool :=
  p.llm_score_status ∈ ["completed", "failed", "not_relevant_enough"]

/-- `Paper.has_highly_relevant_topic`: at least one of the five relevance
fields is `Highly Relevant` or `Moderately Relevant`. -/
def has_highly_relevant_topic (p : Paper) : Bool :=
  let relevance_scores := [p.rlhf_relevance, p.weak_supervision_relevance,
    p.diffusion_reasoning_relevance, p.distributed_training_relevance,
    p.datasets_relevance]
  relevance_scores.contains "Highly Relevant" ||
    relevance_scores.contains "Moderately Relevant"

/-- `Paper.is_h_index_completed`. -/
def is_h_index_completed (p : Paper) : Bool :=
  p.h_index_status == "completed"

/-- `Paper.can_skip_h_index_fetching`. -/
def can_skip_h_index_fetching (p : Paper) : Bool :=
  p.h_index_status ∈ ["completed", "failed"]

/-- `Paper.is_valuable_paper`. -/
def is_valuable_paper (p : Paper) : Bool :=
  p.recommendation_score = some "Must Read" ||
    p.recommendation_score = some "Should Read"

end Paper

/-! ## Persistence (`src/database.py`)

The `papers` table of `PaperDatabase` has exactly the columns below; note
that the table has no column for `Paper.last_generated`.  TEXT columns
holding JSON-encoded lists or ISO-formatted datetimes are modelled by the
decoded value itself, since `json.dumps`/`json.loads` and
`isoformat`/`fromisoformat` are exact inverses on these values. -/

/-- One row of the `papers` table (`PaperDatabase._create_tables`). -/
structure PaperRow where
  id : String
  title : String
  authors : List String
  categories : List String
  abstract : String
  published_date : ℕ
  arxiv_url : Option String
  pdf_url : Option String
  latex_url : Option String
  scraper_status : String
  intro_status : String
  introduction_text : Option String
  intro_extraction_method : Option String
  tex_file_name : Option String
  embedding_status : String
  rlhf_score : Option ℚ
  weak_supervision_score : Option ℚ
  diffusion_reasoning_score : Option ℚ
  distributed_training_score : Option ℚ
  datasets_score : Option ℚ
  highest_similarity_topic : Option String
  llm_validation_status : String
  rlhf_relevance : String
  weak_supervision_relevance : String
  diffusion_reasoning_relevance : String
  distributed_training_relevance : String
  datasets_relevance : String
  rlhf_justification : String
  weak_supervision_justification : String
  diffusion_reasoning_justification : String
  distributed_training_justification : String
  datasets_justification : String
  llm_score_status : String
  summary : Option String
  novelty_score : Option String
  novelty_justification : Option String
  impact_score : Option String
  impact_justification : Option String
  recommendation_score : Option String
  recommendation_justification : Option String
  h_index_status : String
  semantic_scholar_url : Option String
  h_index_fetch_method : Option String
  total_authors : Option ℤ
  authors_found : Option ℤ
  highest_h_index : Option ℤ
  average_h_index : Option ℚ
  notable_authors_count : Option ℤ
  author_h_indexes : List AuthorHIndex
  errors : List String
  created_at : ℕ
  updated_at : ℕ
  deriving Repr, DecidableEq

/-- `PaperDatabase.save_paper`: the row written by the
`INSERT OR REPLACE INTO papers` statement, column by column, in the order
of the source.  `last_generated` is not among the stored columns. -/
def save_paper (p : Paper) : PaperRow :=
  { id := p.id
    title := p.title
    authors := p.authors
    categories := p.categories
    abstract := p.abstract
    published_date := p.published_date
    arxiv_url := p.arxiv_url
    pdf_url := p.pdf_url
    latex_url := p.latex_url
    scraper_status := p.scraper_status
    intro_status := p.intro_status
    introduction_text := p.introduction_text
    intro_extraction_method := p.intro_extraction_method
    tex_file_name := p.tex_file_name
    embedding_status := p.embedding_status
    rlhf_score := p.rlhf_score
    weak_supervision_score := p.weak_supervision_score
    diffusion_reasoning_score := p.diffusion_reasoning_score
    distributed_training_score := p.distributed_training_score
    datasets_score := p.datasets_score
    highest_similarity_topic := p.highest_similarity_topic
    llm_validation_status := p.llm_validation_status
    rlhf_relevance := p.rlhf_relevance
    weak_supervision_relevance := p.weak_supervision_relevance
    diffusion_reasoning_relevance := p.diffusion_reasoning_relevance
    distributed_training_relevance := p.distributed_training_relevance
    datasets_relevance := p.datasets_relevance
    rlhf_justification := p.rlhf_justification
    weak_supervision_justification := p.weak_supervision_justification
    diffusion_reasoning_justification := p.diffusion_reasoning_justification
    distributed_training_justification := p.distributed_training_justification
    datasets_justification := p.datasets_justification
    llm_score_status := p.llm_score_status
    summary := p.summary
    novelty_score := p.novelty_score
    novelty_justification := p.novelty_justification
    impact_score := p.impact_score
    impact_justification := p.impact_justification
    recommendation_score := p.recommendation_score
    recommendation_justification := p.recommendation_justification
    h_index_status := p.h_index_status
    semantic_scholar_url := p.semantic_scholar_url
    h_index_fetch_method := p.h_index_fetch_method
    total_authors := p.total_authors
    authors_found := p.authors_found
    highest_h_index := p.highest_h_index
    average_h_index := p.average_h_index
    notable_authors_count := p.notable_authors_count
    author_h_indexes := p.author_h_indexes
    errors := p.errors
    created_at := p.created_at
    updated_at := p.updated_at }

/-- `PaperDatabase.load_paper`: reconstructs a `Paper` from a row,
passing each column to the corresponding constructor argument.  The
`Paper` fields not mentioned by the source's constructor call — only
`last_generated` — take their dataclass defaults. -/
def load_paper (row : PaperRow) : Paper :=
  { id := row.id
    title := row.title
    authors := row.authors
    categories := row.categories
    abstract := row.abstract
    published_date := row.published_date
    arxiv_url := row.arxiv_url
    pdf_url := row.pdf_url
    latex_url := row.latex_url
    scraper_status := row.scraper_status
    intro_status := row.intro_status
    introduction_text := row.introduction_text
    intro_extraction_method := row.intro_extraction_method
    tex_file_name := row.tex_file_name
    embedding_status := row.embedding_status
    rlhf_score := row.rlhf_score
    weak_supervision_score := row.weak_supervision_score
    diffusion_reasoning_score := row.diffusion_reasoning_score
    distributed_training_score := row.distributed_training_score
    datasets_score := row.datasets_score
    highest_similarity_topic := row.highest_similarity_topic
    llm_validation_status := row.llm_validation_status
    rlhf_relevance := row.rlhf_relevance
    weak_supervision_relevance := row.weak_supervision_relevance
    diffusion_reasoning_relevance := row.diffusion_reasoning_relevance
    distributed_training_relevance := row.distributed_training_relevance
    datasets_relevance := row.datasets_relevance
    rlhf_justification := row.rlhf_justification
    weak_supervision_justification := row.weak_supervision_justification
    diffusion_reasoning_justification := row.diffusion_reasoning_justification
    distributed_training_justification := row.distributed_training_justification
    datasets_justification := row.datasets_justification
    llm_score_status := row.llm_score_status
    summary := row.summary
    novelty_score := row.novelty_score
    novelty_justification := row.novelty_justification
    impact_score := row.impact_score
    impact_justification := row.impact_justification
    recommendation_score := row.recommendation_score
    recommendation_justification := row.recommendation_justification
    h_index_status := row.h_index_status
    semantic_scholar_url := row.semantic_scholar_url
    h_index_fetch_method := row.h_index_fetch_method
    total_authors := row.total_authors
    authors_found := row.authors_found
    highest_h_index := row.highest_h_index
    average_h_index := row.average_h_index
    notable_authors_count := row.notable_authors_count
    author_h_indexes := row.author_h_indexes
    errors := row.errors
    created_at := row.created_at
    updated_at := row.updated_at }

/-! ## LLM-validation admission filter
(`src/modules/llm_validation.py`, `_identify_papers_for_validation`,
`_set_below_threshold_justifications`, `_set_all_below_threshold`,
`_get_topics_to_validate`). -/

/-- The four topic score fields inspected by the validation filter, in the
order of the source's `topic_scores` dict. -/
def topic_scores (p : Paper) : List (String × Option ℚ) :=
  [("Reinforcement Learning from Human Feedback", p.rlhf_score),
   ("Weak Supervision", p.weak_supervision_score),
   ("Diffusion-based Reasoning", p.diffusion_reasoning_score),
   ("Distributed Training", p.distributed_training_score)]

/-- One entry of `topic_scores` passes the threshold when its score is
non-null and at least the threshold (`score is not None and score >= threshold`). -/
def score_above_threshold (threshold : ℚ) : Option ℚ → Bool
  | none => false
  | some s => threshold ≤ s

/-- `LLMValidation._get_topics_to_validate`: names of topics whose score is
non-null and at least the threshold. -/
def get_topics_to_validate (threshold : ℚ) (p : Paper) : List String :=
  ((topic_scores p).filter (fun t => score_above_threshold threshold t.2)).map (·.1)

/-- `LLMValidation._set_below_threshold_justifications`: for each topic
whose score is null or strictly below the threshold, set that topic's
justification to `below_threshold`. -/
def set_below_threshold_justifications (threshold : ℚ) (p : Paper) : Paper :=
  let below : Option ℚ → Bool := fun s =>
    match s with
    | none => true
    | some v => v < threshold
  let p := if below p.rlhf_score then
    { p with rlhf_justification := "below_threshold" } else p
  let p := if below p.weak_supervision_score then
    { p with weak_supervision_justification := "below_threshold" } else p
  let p := if below p.diffusion_reasoning_score then
    { p with diffusion_reasoning_justification := "below_threshold" } else p
  let p := if below p.distributed_training_score then
    { p with distributed_training_justification := "below_threshold" } else p
  p

/-- `LLMValidation._set_all_below_threshold`: set all four topic
justifications to `below_threshold`. -/
def set_all_below_threshold (p : Paper) : Paper :=
  { p with rlhf_justification := "below_threshold",
           weak_supervision_justification := "below_threshold",
           diffusion_reasoning_justification := "below_threshold",
           distributed_training_justification := "below_threshold" }

/-- Outcome of the validation filter's per-paper decision. -/
inductive ValidationDecision where
  /-- Skipped: `is_embedding_completed` is false (`no_embedding_data`). -/
  | skipNoEmbedding
  /-- Skipped: `llm_validation_status` in `[completed, failed]`
  (`already_validated`). -/
  | skipAlreadyValidated
  /-- Admitted to the LLM worker, with below-threshold justifications set. -/
  | admitted (p' : Paper)
  /-- All topics below threshold: justifications set and
  `llm_validation_status` written to `completed` without any API call
  (`no_topics_above_threshold`). -/
  | noTopicsAbove (p' : Paper)
  deriving Repr, DecidableEq

/-- The per-paper body of `_identify_papers_for_validation`'s loop. -/
def validation_step (threshold : ℚ) (now : ℕ) (p : Paper) : ValidationDecision :=
  if ¬ p.is_embedding_completed then .skipNoEmbedding
  else if p.llm_validation_status ∈ ["completed", "failed"] then .skipAlreadyValidated
  else if (topic_scores p).any (fun t => score_above_threshold threshold t.2) then
    .admitted (set_below_threshold_justifications threshold p)
  else
    .noTopicsAbove ((set_all_below_threshold p).update_llm_validation_status "completed" now)

/-- Result of running the validation filter over the in-memory paper list:
the admitted papers, the whole updated list, and the three skip counters
logged by the source. -/
structure ValidationFilterResult where
  admitted : List Paper
  updated : List Paper
  no_embedding_data : ℕ
  already_validated : ℕ
  no_topics_above_threshold : ℕ
  deriving Repr, DecidableEq

/-- `LLMValidation._identify_papers_for_validation`: fold of
`validation_step` over the papers, collecting the admitted list, the
mutated paper set and the skip counters. -/
def identify_papers_for_validation (threshold : ℚ) (now : ℕ) :
    List Paper → ValidationFilterResult
  | [] => ⟨[], [], 0, 0, 0⟩
  | p :: rest =>
    let r := identify_papers_for_validation threshold now rest
    match validation_step threshold now p with
    | .skipNoEmbedding =>
        { r with updated := p :: r.updated,
                 no_embedding_data := r.no_embedding_data + 1 }
    | .skipAlreadyValidated =>
        { r with updated := p :: r.updated,
                 already_validated := r.already_validated + 1 }
    | .admitted p' =>
        { r with admitted := p' :: r.admitted, updated := p' :: r.updated }
    | .noTopicsAbove p' =>
        { r with updated := p' :: r.updated,
                 no_topics_above_threshold := r.no_topics_above_threshold + 1 }

/-! ## LLM-scoring admission filter
(`pipeline/src/modules/llm_scoring.py`, `_identify_papers_for_scoring`). -/

/-- Outcome of the scoring filter's per-paper decision. -/
inductive ScoringDecision where
  /-- Skipped: `is_llm_validation_completed` is false (`no_llm_validation`). -/
  | skipNoValidation
  /-- Skipped: `can_skip_llm_scoring` (`already_scored`). -/
  | skipAlreadyScored
  /-- Admitted to the LLM scoring worker. -/
  | admitted
  /-- No sufficiently relevant topic: `llm_score_status` written to
  `not_relevant_enough` (`insufficient_relevance`). -/
  | notRelevantEnough (p' : Paper)
  deriving Repr, DecidableEq

/-- The per-paper body of `_identify_papers_for_scoring`'s loop. -/
def scoring_step (now : ℕ) (p : Paper) : ScoringDecision :=
  if ¬ p.is_llm_validation_completed then .skipNoValidation
  else if p.can_skip_llm_scoring then .skipAlreadyScored
  else if p.has_highly_relevant_topic then .admitted
  else .notRelevantEnough (p.update_llm_score_status "not_relevant_enough" now)

/-! ## Embedding admission filter and h-index admission filter. -/

/-- `EmbeddingSimilarity.run`, step 2: `papers_to_process` is every paper
whose `is_embedding_completed` is false. -/
def embedding_papers_to_process (papers : List Paper) : List Paper :=
  papers.filter (fun p => ¬ p.is_embedding_completed)

/-- `HIndexFetching._identify_target_papers`: skip papers with
`can_skip_h_index_fetching`; among the rest admitted the valuable ones. -/
def h_index_target_papers (papers : List Paper) : List Paper :=
  papers.filter (fun p => ¬ p.can_skip_h_index_fetching && p.is_valuable_paper)

/-! ## String containment

The source classifies exceptions by substring checks on the error
message (for example `"token" in error_msg.lower()`).  `str_contains_sub s pat`
decides whether `pat` occurs as a contiguous substring of `s`. -/

/-- Python's `str.lower`, written over the character list so that it is
kernel-computable (`String.toLower` itself is not). -/
def str_lower (s : String) : String := ⟨s.data.map Char.toLower⟩

/-- Character-list version of "starts with". -/
def chars_start_with : List Char → List Char → Bool
  | [], _ => true
  | _ :: _, [] => false
  | a :: as, b :: bs => a == b && chars_start_with as bs

/-- Python's `pat in s` on strings: `pat` occurs contiguously in `s`. -/
def str_contains_sub (s pat : String) : Bool :=
  (List.range (s.data.length + 1)).any (fun i => chars_start_with pat.data (s.data.drop i))

/-- The LLM-scoring token-limit classification
(`"token" in error_msg.lower() and ("limit" in error_msg.lower() or
"exceed" in error_msg.lower())`). -/
def is_token_limit_error (error_msg : String) : Bool :=
  str_contains_sub (str_lower error_msg) "token" &&
    (str_contains_sub (str_lower error_msg) "limit" ||
      str_contains_sub (str_lower error_msg) "exceed")

/-! ## Per-item retry executors

A per-item worker is modelled as `worker : ℕ → Except String (Paper → Paper)`:
`worker attempt` is the outcome of the attempt-th invocation of
`_process_single_paper` — `.ok f` yields the mutation `f` the success path
applies to the paper, `.error e` is the message of the exception raised.
The rate-limit branch of both loops only sleeps and is therefore absent
from the state model; backoff sleeps likewise.  Each loop returns the
final paper together with the number of worker invocations made. -/

/-- Loop body of `LLMValidation._process_paper_with_retry`, iterating over
the remaining attempt indices (`for attempt in range(max_retries + 1)`). -/
def validation_retry_go (worker : ℕ → Except String (Paper → Paper))
    (max_retries now : ℕ) : List ℕ → Paper → Paper × ℕ
  | [], p => (p, 0)
  | attempt :: rest, p =>
    match worker attempt with
    | .ok f => ((f p).update_llm_validation_status "completed" now, attempt + 1)
    | .error e =>
      if attempt = max_retries then
        (((p.update_llm_validation_status "failed" now).add_error
            ("LLM validation failed after " ++ toString (max_retries + 1) ++
              " attempts: " ++ e) now), attempt + 1)
      else
        validation_retry_go worker max_retries now rest p

/-- `LLMValidation._process_paper_with_retry`. -/
def validation_process_paper_with_retry (worker : ℕ → Except String (Paper → Paper))
    (max_retries now : ℕ) (p : Paper) : Paper × ℕ :=
  validation_retry_go worker max_retries now (List.range (max_retries + 1)) p

/-- Loop body of `LLMScoring._process_paper_with_retry`: same shape as the
validation loop, with the extra token-limit short-circuit checked before
the exhaustion test. -/
def scoring_retry_go (worker : ℕ → Except String (Paper → Paper))
    (max_retries now : ℕ) : List ℕ → Paper → Paper × ℕ
  | [], p => (p, 0)
  | attempt :: rest, p =>
    match worker attempt with
    | .ok f => ((f p).update_llm_score_status "completed" now, attempt + 1)
    | .error e =>
      if is_token_limit_error e then
        (((p.update_llm_score_status "failed" now).add_error
            "LLM scoring failed: token limit exceeded" now), attempt + 1)
      else if attempt = max_retries then
        (((p.update_llm_score_status "failed" now).add_error
            ("LLM scoring failed after " ++ toString (max_retries + 1) ++
              " attempts: " ++ e) now), attempt + 1)
      else
        scoring_retry_go worker max_retries now rest p

/-- `LLMScoring._process_paper_with_retry`; the source fixes
`max_retries = 3` inside the function. -/
def scoring_process_paper_with_retry (worker : ℕ → Except String (Paper → Paper))
    (now : ℕ) (p : Paper) : Paper × ℕ :=
  scoring_retry_go worker 3 now (List.range 4) p

/-! ## Embedding stage (`src/modules/embedding_similarity.py`) -/

/-- Error message attached to every paper of a failed embedding batch
(`_process_batch`, outer `except` branch). -/
def embedding_batch_error_message (e : String) : String :=
  if str_contains_sub (str_lower e) "token" then "embedding_token_limit_exceeded"
  else "Embedding generation failed: " ++ e

/-- Batch-failure path of `EmbeddingSimilarity._process_batch`: every
paper of the batch is marked `failed` and receives the same error string. -/
def process_batch_failure (e : String) (now : ℕ) (batch : List Paper) : List Paper :=
  batch.map (fun p =>
    (p.update_embedding_status "failed" now).add_error
      (embedding_batch_error_message e) now)

/-- The `scores` dict computed for one paper in `_process_batch`: the
cosine similarity of the paper's embedding against each of the four topic
embeddings. -/
structure TopicScores where
  rlhf : ℚ
  weak_supervision : ℚ
  diffusion_reasoning : ℚ
  distributed_training : ℚ
  deriving Repr, DecidableEq

/-- The `scores` dict as an association list, in the insertion order of
`self.topics`. -/
def scores_list (s : TopicScores) : List (String × ℚ) :=
  [("Reinforcement Learning from Human Feedback", s.rlhf),
   ("Weak Supervision", s.weak_supervision),
   ("Diffusion-based Reasoning", s.diffusion_reasoning),
   ("Distributed Training", s.distributed_training)]

/-- Python's `max(scores, key=scores.get)`: scan keeping the current
maximum, replacing it only on a strictly greater value, so ties keep the
earliest entry. -/
def max_by_value : (String × ℚ) → List (String × ℚ) → (String × ℚ)
  | best, [] => best
  | best, x :: xs => max_by_value (if best.2 < x.2 then x else best) xs

/-- `highest_topic = max(scores, key=scores.get)` for one paper. -/
def highest_topic (s : TopicScores) : String :=
  match scores_list s with
  | [] => ""
  | x :: xs => (max_by_value x xs).1

/-- Per-paper success path of `_process_batch`: store the four scores,
record the highest-scoring topic and mark the embedding stage completed. -/
def process_paper_embedding_success (s : TopicScores) (now : ℕ) (p : Paper) : Paper :=
  ({ p with rlhf_score := some s.rlhf,
            weak_supervision_score := some s.weak_supervision,
            diffusion_reasoning_score := some s.diffusion_reasoning,
            distributed_training_score := some s.distributed_training,
            highest_similarity_topic := some (highest_topic s)
    } : Paper).update_embedding_status "completed" now

/-! ## Rounding to three significant figures
(`EmbeddingSimilarity._round_to_3_sig_figs`, `_round_similarity_scores`).

Python's builtin `round` rounds halves to the nearest even integer. -/

/-- Python's `round(q)` on an exact value: round half to even. -/
def round_half_even (q : ℚ) : ℤ :=
  let n := ⌊q⌋
  let f := q - n
  if f < 1/2 then n
  else if (1 : ℚ)/2 < f then n + 1
  else if n % 2 = 0 then n else n + 1

/-- `math.floor(math.log10(abs(value)))`. -/
def magnitude (q : ℚ) : ℤ := Int.log 10 |q|

/-- `EmbeddingSimilarity._round_to_3_sig_figs` on a non-null value. -/
def round_to_3_sig_figs (q : ℚ) : ℚ :=
  if q = 0 then 0
  else
    let factor : ℚ := (10 : ℚ) ^ (2 - magnitude q)
    (round_half_even (q * factor) : ℚ) / factor

/-- `_round_to_3_sig_figs` including its `None` passthrough. -/
def round_score : Option ℚ → Option ℚ
  | none => none
  | some v => some (round_to_3_sig_figs v)

/-- Per-paper body of `EmbeddingSimilarity._round_similarity_scores`:
papers whose `embedding_status` is `completed` get their four similarity
scores rounded in place; `updated_at` is not touched. -/
def round_similarity_scores_paper (p : Paper) : Paper :=
  if p.embedding_status = "completed" then
    { p with rlhf_score := round_score p.rlhf_score,
             weak_supervision_score := round_score p.weak_supervision_score,
             diffusion_reasoning_score := round_score p.diffusion_reasoning_score,
             distributed_training_score := round_score p.distributed_training_score }
  else p

/-- `EmbeddingSimilarity._round_similarity_scores` over the paper set. -/
def round_similarity_scores (papers : List Paper) : List Paper :=
  papers.map round_similarity_scores_paper

/-! ## Scoring filter over the paper list
(`pipeline/src/modules/llm_scoring.py`, `_identify_papers_for_scoring`). -/

/-- Result of the scoring filter: admitted papers, updated paper set and
the three skip counters logged by the source. -/
structure ScoringFilterResult where
  admitted : List Paper
  updated : List Paper
  no_llm_validation : ℕ
  already_scored : ℕ
  insufficient_relevance : ℕ
  deriving Repr, DecidableEq

/-- `LLMScoring._identify_papers_for_scoring` as a fold of `scoring_step`. -/
def identify_papers_for_scoring (now : ℕ) : List Paper → ScoringFilterResult
  | [] => ⟨[], [], 0, 0, 0⟩
  | p :: rest =>
    let r := identify_papers_for_scoring now rest
    match scoring_step now p with
    | .skipNoValidation =>
        { r with updated := p :: r.updated,
                 no_llm_validation := r.no_llm_validation + 1 }
    | .skipAlreadyScored =>
        { r with updated := p :: r.updated,
                 already_scored := r.already_scored + 1 }
    | .admitted =>
        { r with admitted := p :: r.admitted, updated := p :: r.updated }
    | .notRelevantEnough p' =>
        { r with updated := p' :: r.updated,
                 insufficient_relevance := r.insufficient_relevance + 1 }

/-! ## Concrete example papers used by witnesses and counterexamples. -/

/-- A minimal freshly scraped paper. -/
def basePaper : Paper :=
  { id := "2501.00001", title := "t", authors := ["a"], categories := ["cs.AI"],
    abstract := "s", published_date := 1 }

/-! ## Shared lemmas. -/

theorem score_above_threshold_iff {threshold : ℚ} {s : Option ℚ} :
    score_above_threshold threshold s = true ↔ ∃ v, s = some v ∧ threshold ≤ v := by
  cases s <;> simp [score_above_threshold]

theorem set_below_threshold_justifications_status (threshold : ℚ) (p : Paper) :
    (set_below_threshold_justifications threshold p).embedding_status = p.embedding_status ∧
    (set_below_threshold_justifications threshold p).llm_validation_status = p.llm_validation_status := by
  unfold set_below_threshold_justifications
  dsimp only
  constructor <;> (split <;> split <;> split <;> split <;> rfl)

/-- Every paper admitted by the validation filter arises from an
`admitted` decision on a member of the input list. -/
theorem identify_validation_admitted_sound (threshold : ℚ) (now : ℕ) :
    ∀ (ps : List Paper) (q : Paper),
      q ∈ (identify_papers_for_validation threshold now ps).admitted →
      ∃ p ∈ ps, validation_step threshold now p = .admitted q
  | [], q => by simp [identify_papers_for_validation]
  | p :: rest, q => by
    intro hq
    unfold identify_papers_for_validation at hq
    rcases h : validation_step threshold now p with _ | _ | p' | p' <;>
      rw [h] at hq <;> dsimp only at hq
    · obtain ⟨r, hr, hstep⟩ := identify_validation_admitted_sound threshold now rest q hq
      exact ⟨r, List.mem_cons_of_mem _ hr, hstep⟩
    · obtain ⟨r, hr, hstep⟩ := identify_validation_admitted_sound threshold now rest q hq
      exact ⟨r, List.mem_cons_of_mem _ hr, hstep⟩
    · rcases List.mem_cons.mp hq with hq | hq
      · exact ⟨p, List.mem_cons_self _ _, hq ▸ h⟩
      · obtain ⟨r, hr, hstep⟩ := identify_validation_admitted_sound threshold now rest q hq
        exact ⟨r, List.mem_cons_of_mem _ hr, hstep⟩
    · obtain ⟨r, hr, hstep⟩ := identify_validation_admitted_sound threshold now rest q hq
      exact ⟨r, List.mem_cons_of_mem _ hr, hstep⟩

/-- Every paper admitted by the scoring filter is a member of the input
list on which the decision was `admitted`. -/
theorem identify_scoring_admitted_sound (now : ℕ) :
    ∀ (ps : List Paper) (q : Paper),
      q ∈ (identify_papers_for_scoring now ps).admitted →
      q ∈ ps ∧ scoring_step now q = .admitted
  | [], q => by simp [identify_papers_for_scoring]
  | p :: rest, q => by
    intro hq
    unfold identify_papers_for_scoring at hq
    rcases h : scoring_step now p with _ | _ | _ | p' <;>
      rw [h] at hq <;> dsimp only at hq
    · obtain ⟨hr, hstep⟩ := identify_scoring_admitted_sound now rest q hq
      exact ⟨List.mem_cons_of_mem _ hr, hstep⟩
    · obtain ⟨hr, hstep⟩ := identify_scoring_admitted_sound now rest q hq
      exact ⟨List.mem_cons_of_mem _ hr, hstep⟩
    · rcases List.mem_cons.mp hq with hq | hq
      · subst hq; exact ⟨List.mem_cons_self _ _, h⟩
      · obtain ⟨hr, hstep⟩ := identify_scoring_admitted_sound now rest q hq
        exact ⟨List.mem_cons_of_mem _ hr, hstep⟩
    · obtain ⟨hr, hstep⟩ := identify_scoring_admitted_sound now rest q hq
      exact ⟨List.mem_cons_of_mem _ hr, hstep⟩

theorem validation_step_admit_embedding (threshold : ℚ) (now : ℕ) (p q : Paper)
    (h : validation_step threshold now p = .admitted q) :
    q.embedding_status = "completed" ∧ p.is_embedding_completed = true := by
  unfold validation_step at h
  by_cases h1 : ¬ p.is_embedding_completed
  · rw [if_pos h1] at h; exact absurd h (by simp)
  · rw [if_neg h1] at h
    have hemb : p.is_embedding_completed = true := by
      revert h1; cases p.is_embedding_completed <;> simp
    refine ⟨?_, hemb⟩
    by_cases h2 : p.llm_validation_status ∈ (["completed", "failed"] : List String)
    · rw [if_pos h2] at h; exact absurd h (by simp)
    · rw [if_neg h2] at h
      by_cases h3 : (topic_scores p).any (fun t => score_above_threshold threshold t.2) = true
      · rw [if_pos h3] at h
        have hq : q = set_below_threshold_justifications threshold p := by
          injection h with h'; exact h'.symm
        subst hq
        rw [(set_below_threshold_justifications_status threshold p).1]
        simpa [Paper.is_embedding_completed] using hemb
      · rw [if_neg h3] at h; exact absurd h (by simp)

theorem scoring_step_admit_validation (now : ℕ) (p : Paper)
    (h : scoring_step now p = .admitted) :
    p.llm_validation_status = "completed" := by
  unfold scoring_step at h
  by_cases h1 : ¬ p.is_llm_validation_completed
  · rw [if_pos h1] at h; exact absurd h (by simp)
  · rw [if_neg h1] at h
    have : p.is_llm_validation_completed = true := by
      revert h1; cases p.is_llm_validation_completed <;> simp
    simpa [Paper.is_llm_validation_completed] using this

/-- A paper with completed embeddings whose RLHF score sits exactly at the
configured threshold 0.4. -/
def paperC2 : Paper :=
  { basePaper with embedding_status := "completed", rlhf_score := some 2 }

/-- A paper with completed embeddings whose non-null scores are all 0.1,
strictly below the threshold. -/
def paperC6 : Paper :=
  { basePaper with
    embedding_status := "completed",
    rlhf_score := some 1,
    weak_supervision_score := some 1,
    diffusion_reasoning_score := none,
    distributed_training_score := some 1 }

/-- A paper whose embedding stage already ended in the terminal status
`failed`. -/
def paperC1 : Paper := { basePaper with embedding_status := "failed" }

/-- A paper past validation with a highly relevant topic, admissible to
LLM scoring. -/
def paperScoringReady : Paper :=
  { basePaper with
    llm_validation_status := "completed",
    rlhf_relevance := "Highly Relevant" }

/-- A paper with validation, scoring and h-index all terminal. -/
def paperTerminal : Paper :=
  { basePaper with
    llm_validation_status := "completed",
    llm_score_status := "completed",
    h_index_status := "completed" }

/-- C2: for a paper with completed embeddings and a non-terminal
validation status, the validation filter admits it exactly when some
topic score is non-null and at least the configured similarity threshold;
in particular a score equal to the threshold admits, a strictly smaller
one does not, and a null score never passes. -/
theorem C2_validation_threshold_admission (threshold : ℚ) (now : ℕ) (p : Paper)
    (hemb : p.is_embedding_completed = true)
    (hterm : p.llm_validation_status ∉ (["completed", "failed"] : List String)) :
    (∃ p', validation_step threshold now p = .admitted p') ↔
      ∃ t ∈ topic_scores p, ∃ v, t.2 = some v ∧ threshold ≤ v := by
  unfold validation_step
  rw [if_neg (by simp [hemb]), if_neg hterm]
  by_cases h : (topic_scores p).any (fun t => score_above_threshold threshold t.2) = true
  · rw [if_pos h]
    simp only [List.any_eq_true, score_above_threshold_iff] at h
    exact ⟨fun _ => h, fun _ => ⟨_, rfl⟩⟩
  · rw [if_neg h]
    simp only [List.any_eq_true, score_above_threshold_iff] at h
    constructor
    · rintro ⟨p', hp'⟩; simp at hp'
    · intro hr; exact absurd hr h

/-- C2 witness: the paper whose RLHF score is exactly 0.4 is admitted at
threshold 0.4. -/
theorem C2_validation_threshold_admission_witness :
    ∃ p', validation_step 2 5 paperC2 = .admitted p' :=
  (C2_validation_threshold_admission 2 5 paperC2 (by decide) (by decide)).mpr
    ⟨("Reinforcement Learning from Human Feedback", some 2), by decide,
      2, rfl, le_refl _⟩

/-- C5: every paper the scoring filter hands to its worker has
`llm_validation_status = "completed"`, and every paper the validation
filter hands to its worker has `embedding_status = "completed"`. -/
theorem C5_upstream_status_gating (threshold : ℚ) (now : ℕ) (ps : List Paper) :
    (∀ q ∈ (identify_papers_for_scoring now ps).admitted,
        q.llm_validation_status = "completed") ∧
    (∀ q ∈ (identify_papers_for_validation threshold now ps).admitted,
        q.embedding_status = "completed") := by
  constructor
  · intro q hq
    obtain ⟨_, hstep⟩ := identify_scoring_admitted_sound now ps q hq
    exact scoring_step_admit_validation now q hstep
  · intro q hq
    obtain ⟨p, _, hstep⟩ := identify_validation_admitted_sound threshold now ps q hq
    exact (validation_step_admit_embedding threshold now p q hstep).1

/-- C5 witness: on a concrete two-paper set, the paper admitted to scoring
has completed validation, and the paper admitted to validation has
completed embeddings. -/
theorem C5_upstream_status_gating_witness :
    paperScoringReady.llm_validation_status = "completed" ∧
    (set_below_threshold_justifications 2 paperC2).embedding_status = "completed" := by
  obtain ⟨h1, h2⟩ := C5_upstream_status_gating 2 5 [paperScoringReady, paperC2]
  exact ⟨h1 paperScoringReady (by decide),
    h2 (set_below_threshold_justifications 2 paperC2) (by decide)⟩

/-- C6 counterexample: a paper whose scores are all below the threshold
has its validation status written to `completed` — the stage's ordinary
success value — not to any distinct "not eligible" vocabulary. -/
theorem C6_counterexample :
    validation_step 2 5 paperC6 =
      .noTopicsAbove ((set_all_below_threshold paperC6).update_llm_validation_status "completed" 5) ∧
    ((set_all_below_threshold paperC6).update_llm_validation_status "completed" 5).llm_validation_status
      = "completed" ∧
    "completed" ≠ "not_eligible" ∧ "completed" ≠ "skipped_not_eligible" := by
  refine ⟨by decide, by decide, by decide, by decide⟩

/-- C6 amended: a paper with completed embeddings, non-terminal validation
status and no topic score at or above the threshold gets all four
justifications set to `below_threshold` and its validation status written
directly to the terminal value `completed` (skip-as-complete); it is never
admitted to the worker and is counted in the
`no_topics_above_threshold` counter. -/
theorem C6_below_threshold_skip_as_complete (threshold : ℚ) (now : ℕ) (p : Paper)
    (hemb : p.is_embedding_completed = true)
    (hterm : p.llm_validation_status ∉ (["completed", "failed"] : List String))
    (hbelow : ∀ t ∈ topic_scores p, score_above_threshold threshold t.2 = false) :
    ∃ p', validation_step threshold now p = .noTopicsAbove p' ∧
      p'.llm_validation_status = "completed" ∧
      p'.rlhf_justification = "below_threshold" ∧
      p'.weak_supervision_justification = "below_threshold" ∧
      p'.diffusion_reasoning_justification = "below_threshold" ∧
      p'.distributed_training_justification = "below_threshold" ∧
      ∀ ps : List Paper,
        (identify_papers_for_validation threshold now (p :: ps)).admitted =
          (identify_papers_for_validation threshold now ps).admitted ∧
        (identify_papers_for_validation threshold now (p :: ps)).no_topics_above_threshold =
          (identify_papers_for_validation threshold now ps).no_topics_above_threshold + 1 := by
  have hany : (topic_scores p).any (fun t => score_above_threshold threshold t.2) = false := by
    rw [List.any_eq_false]
    intro t ht
    simp [hbelow t ht]
  have hstep : validation_step threshold now p =
      .noTopicsAbove ((set_all_below_threshold p).update_llm_validation_status "completed" now) := by
    unfold validation_step
    rw [if_neg (by simp [hemb]), if_neg hterm, if_neg (by simp [hany])]
  refine ⟨_, hstep, rfl, rfl, rfl, rfl, rfl, fun ps => ?_⟩
  constructor <;> simp only [identify_papers_for_validation, hstep]

/-- C6 witness: the concrete all-below-threshold paper takes the
skip-as-complete path with all four justifications written. -/
theorem C6_below_threshold_skip_as_complete_witness :
    ∃ p', validation_step 2 5 paperC6 = .noTopicsAbove p' ∧
      p'.llm_validation_status = "completed" ∧
      p'.rlhf_justification = "below_threshold" ∧
      p'.weak_supervision_justification = "below_threshold" ∧
      p'.diffusion_reasoning_justification = "below_threshold" ∧
      p'.distributed_training_justification = "below_threshold" ∧
      ∀ ps : List Paper,
        (identify_papers_for_validation 2 5 (paperC6 :: ps)).admitted =
          (identify_papers_for_validation 2 5 ps).admitted ∧
        (identify_papers_for_validation 2 5 (paperC6 :: ps)).no_topics_above_threshold =
          (identify_papers_for_validation 2 5 ps).no_topics_above_threshold + 1 :=
  C6_below_threshold_skip_as_complete 2 5 paperC6 (by decide) (by decide) (by decide)

/-- C1 counterexample: the embedding filter re-admits a paper whose
`embedding_status` already holds the terminal value `failed`, so not every
terminal status is skipped. -/
theorem C1_counterexample :
    paperC1.embedding_status = "failed" ∧
    embedding_papers_to_process [paperC1] = [paperC1] ∧
    paperC1.can_skip_intro_extraction = false ∧
    ({ paperC1 with intro_status := "extraction_failed" } : Paper).can_skip_intro_extraction
      = false := by
  refine ⟨by decide, by decide, by decide, by decide⟩

/-- C1 amended: each stage's skip set characterised.  Validation, scoring
and h-index skip every paper whose own stage status is terminal; the
embedding filter skips exactly the status `completed` (so `failed` papers
are re-admitted), and the intro filter skips exactly
`intro_successful`/`no_latex_source`/`no_intro_found` (so
`extraction_failed` papers are re-admitted). -/
theorem C1_stage_skip_sets (p : Paper) (papers : List Paper) :
    (p ∈ embedding_papers_to_process papers ↔
      p ∈ papers ∧ p.embedding_status ≠ "completed") ∧
    (p.can_skip_intro_extraction = true ↔
      p.intro_status ∈ (["intro_successful", "no_latex_source", "no_intro_found"] : List String)) ∧
    (∀ threshold now, p.llm_validation_status ∈ (["completed", "failed"] : List String) →
      ∀ p', validation_step threshold now p ≠ .admitted p') ∧
    (∀ now, p.can_skip_llm_scoring = true → scoring_step now p ≠ .admitted) ∧
    (p.can_skip_h_index_fetching = true → p ∉ h_index_target_papers papers) := by
  refine ⟨?_, ?_, ?_, ?_, ?_⟩
  · simp [embedding_papers_to_process, List.mem_filter, Paper.is_embedding_completed]
  · simp [Paper.can_skip_intro_extraction]
  · intro threshold now hmem p' hcontra
    unfold validation_step at hcontra
    by_cases h1 : ¬ p.is_embedding_completed
    · rw [if_pos h1] at hcontra; exact absurd hcontra (by simp)
    · rw [if_neg h1, if_pos hmem] at hcontra; exact absurd hcontra (by simp)
  · intro now hskip hcontra
    unfold scoring_step at hcontra
    by_cases h1 : ¬ p.is_llm_validation_completed
    · rw [if_pos h1] at hcontra; exact absurd hcontra (by simp)
    · rw [if_neg h1, if_pos hskip] at hcontra; exact absurd hcontra (by simp)
  · intro hskip hmem
    have := (List.mem_filter.mp hmem).2
    simp [hskip] at this

/-- C1 amended witness: the fully terminal paper is skipped by the
validation, scoring and h-index filters. -/
theorem C1_stage_skip_sets_witness :
    (∀ p', validation_step 2 5 paperTerminal ≠ .admitted p') ∧
    scoring_step 5 paperTerminal ≠ .admitted ∧
    paperTerminal ∉ h_index_target_papers [paperTerminal] := by
  obtain ⟨-, -, h3, h4, h5⟩ := C1_stage_skip_sets paperTerminal [paperTerminal]
  exact ⟨h3 2 5 (by decide), h4 5 (by decide), h5 (by decide)⟩

/-- If the worker fails on every attempt, the validation retry loop runs
through all remaining attempt indices and ends in the exhaustion branch. -/
theorem validation_retry_go_all_fail (worker : ℕ → Except String (Paper → Paper))
    (err : ℕ → String) (max_retries now : ℕ)
    (hfail : ∀ k, worker k = .error (err k)) :
    ∀ (n a : ℕ), a + n = max_retries + 1 → 0 < n → ∀ p : Paper,
      validation_retry_go worker max_retries now (List.range' a n) p =
        (((p.update_llm_validation_status "failed" now).add_error
            ("LLM validation failed after " ++ toString (max_retries + 1) ++
              " attempts: " ++ err max_retries) now), max_retries + 1) := by
  intro n
  induction n with
  | zero => intro a _ h0; exact absurd h0 (by omega)
  | succ m ih =>
    intro a ha _ p
    rw [List.range'_succ]
    simp only [validation_retry_go, hfail a]
    by_cases hlast : a = max_retries
    · subst hlast
      rw [if_pos rfl]
    · rw [if_neg hlast]
      exact ih (a + 1) (by omega) (by omega) p

/-- C3: a validation worker that raises on every attempt is attempted
exactly `max_retries + 1` times, after which the paper's
`llm_validation_status` is `failed` and exactly one aggregate error string
is appended to its error list. -/
theorem C3_validation_retry_exhaustion (worker : ℕ → Except String (Paper → Paper))
    (err : ℕ → String) (max_retries now : ℕ) (p : Paper)
    (hfail : ∀ k, worker k = .error (err k)) :
    validation_process_paper_with_retry worker max_retries now p =
      (((p.update_llm_validation_status "failed" now).add_error
          ("LLM validation failed after " ++ toString (max_retries + 1) ++
            " attempts: " ++ err max_retries) now), max_retries + 1) ∧
    (validation_process_paper_with_retry worker max_retries now p).1.llm_validation_status
      = "failed" ∧
    (validation_process_paper_with_retry worker max_retries now p).1.errors =
      p.errors ++ ["LLM validation failed after " ++ toString (max_retries + 1) ++
        " attempts: " ++ err max_retries] ∧
    (validation_process_paper_with_retry worker max_retries now p).2 = max_retries + 1 := by
  have h := validation_retry_go_all_fail worker err max_retries now hfail
    (max_retries + 1) 0 (by omega) (by omega) p
  rw [validation_process_paper_with_retry, List.range_eq_range', h]
  exact ⟨rfl, rfl, rfl, rfl⟩

/-- C3 witness: with `max_retries = 3` and a worker that always times out,
the loop makes 4 attempts, marks the paper failed and appends one
aggregate error. -/
theorem C3_validation_retry_exhaustion_witness :
    validation_process_paper_with_retry (fun _ => .error "API request timed out") 3 7 basePaper =
      (((basePaper.update_llm_validation_status "failed" 7).add_error
          ("LLM validation failed after " ++ toString (3 + 1) ++
            " attempts: " ++ "API request timed out") 7), 3 + 1) :=
  (C3_validation_retry_exhaustion (fun _ => .error "API request timed out")
    (fun _ => "API request timed out") 3 7 basePaper (fun _ => rfl)).1

/-- C4 counterexample: the validation executor has no token-limit
short-circuit — a worker that always raises a token-limit error is still
attempted all `max_retries + 1 = 4` times before the terminal failure,
instead of failing immediately after the first attempt. -/
theorem C4_counterexample :
    is_token_limit_error "token limit exceeded" = true ∧
    (validation_process_paper_with_retry
      (fun _ => .error "token limit exceeded") 3 7 basePaper).2 = 4 ∧
    (validation_process_paper_with_retry
      (fun _ => .error "token limit exceeded") 3 7 basePaper).1.llm_validation_status
      = "failed" := by
  refine ⟨by decide, by decide, by decide⟩

/-- C4 amended: the token-limit short-circuit holds for the LLM-scoring
executor — a first-attempt token-limit error ends the item immediately
with one attempt, status `failed` and an error recorded — while the
LLM-validation executor retries such errors like any other failure,
spending all `max_retries + 1` attempts. -/
theorem C4_token_limit_short_circuit (now : ℕ) (p : Paper) (e : String)
    (htok : is_token_limit_error e = true) :
    (∀ worker : ℕ → Except String (Paper → Paper), worker 0 = .error e →
      scoring_process_paper_with_retry worker now p =
        (((p.update_llm_score_status "failed" now).add_error
            "LLM scoring failed: token limit exceeded" now), 1)) ∧
    (∀ (worker : ℕ → Except String (Paper → Paper)) (max_retries : ℕ),
      (∀ k, worker k = .error e) →
      (validation_process_paper_with_retry worker max_retries now p).2
        = max_retries + 1) := by
  constructor
  · intro worker h0
    show scoring_retry_go worker 3 now (List.range 4) p = _
    rw [show List.range 4 = [0, 1, 2, 3] from rfl]
    simp only [scoring_retry_go, h0]
    rw [if_pos htok]
  · intro worker max_retries hfail
    have h := validation_retry_go_all_fail worker (fun _ => e) max_retries now
      (fun k => hfail k) (max_retries + 1) 0 (by omega) (by omega) p
    rw [validation_process_paper_with_retry, List.range_eq_range', h]

/-- C4 amended witness: with a concrete token-limit error message, the
scoring executor stops after one attempt while the validation executor
makes four. -/
theorem C4_token_limit_short_circuit_witness :
    scoring_process_paper_with_retry
        (fun _ => .error "Request failed: token limit exceeded") 7 basePaper =
      (((basePaper.update_llm_score_status "failed" 7).add_error
          "LLM scoring failed: token limit exceeded" 7), 1) ∧
    (validation_process_paper_with_retry
      (fun _ => .error "Request failed: token limit exceeded") 3 7 basePaper).2 = 3 + 1 := by
  obtain ⟨h1, h2⟩ := C4_token_limit_short_circuit 7 basePaper
    "Request failed: token limit exceeded" (by decide)
  exact ⟨h1 _ rfl, h2 _ 3 (fun _ => rfl)⟩

/-- C7: after a batch-level embedding failure, every paper of the batch
has `embedding_status = "failed"` and the same error string — a function
of the batch error alone, identical across siblings — appended once to its
error list, with `updated_at` bumped. -/
theorem C7_batch_failure_uniform (e : String) (now : ℕ) (batch : List Paper) (q : Paper)
    (hq : q ∈ process_batch_failure e now batch) :
    q.embedding_status = "failed" ∧
    ∃ p ∈ batch,
      q = (p.update_embedding_status "failed" now).add_error
            (embedding_batch_error_message e) now ∧
      q.errors = p.errors ++ [embedding_batch_error_message e] ∧
      q.updated_at = now := by
  obtain ⟨p, hp, rfl⟩ := List.mem_map.mp hq
  exact ⟨rfl, p, hp, rfl, rfl, rfl⟩

/-- C7 witness: in a concrete failed batch of two papers, the first output
paper is terminal-failed with the shared error string appended. -/
theorem C7_batch_failure_uniform_witness :
    ((basePaper.update_embedding_status "failed" 9).add_error
        (embedding_batch_error_message "connection reset") 9).embedding_status = "failed" ∧
    ∃ p ∈ [basePaper, paperC1],
      (basePaper.update_embedding_status "failed" 9).add_error
          (embedding_batch_error_message "connection reset") 9 =
        (p.update_embedding_status "failed" 9).add_error
          (embedding_batch_error_message "connection reset") 9 ∧
      ((basePaper.update_embedding_status "failed" 9).add_error
          (embedding_batch_error_message "connection reset") 9).errors =
        p.errors ++ [embedding_batch_error_message "connection reset"] ∧
      ((basePaper.update_embedding_status "failed" 9).add_error
          (embedding_batch_error_message "connection reset") 9).updated_at = 9 :=
  C7_batch_failure_uniform "connection reset" 9 [basePaper, paperC1] _ (by decide)

/-- Characterisation of `magnitude` by decade bounds, used to evaluate the
rounding function at concrete inputs. -/
theorem magnitude_eq_of_bounds {q : ℚ} {m : ℤ} (hq : 0 < q)
    (h1 : (10 : ℚ) ^ m ≤ q) (h2 : q < (10 : ℚ) ^ (m + 1)) : magnitude q = m := by
  unfold magnitude
  rw [abs_of_pos hq]
  have hlow := Int.zpow_log_le_self (b := 10) (by norm_num) hq
  have hhigh := Int.lt_zpow_succ_log_self (b := 10) (by norm_num) q
  by_contra hne
  rcases lt_or_gt_of_ne hne with h | h
  · have : (10 : ℚ) ^ (Int.log 10 q + 1) ≤ (10 : ℚ) ^ m :=
      zpow_le_zpow_right₀ (by norm_num) (by omega)
    exact absurd (lt_of_lt_of_le hhigh (le_trans this h1)) (lt_irrefl q)
  · have : (10 : ℚ) ^ (m + 1) ≤ (10 : ℚ) ^ (Int.log 10 q) :=
      zpow_le_zpow_right₀ (by norm_num) (by omega)
    exact absurd (lt_of_lt_of_le h2 (le_trans this hlow)) (lt_irrefl q)

/-- A paper whose completed embedding run stored a score with more than
three significant figures. -/
def paperC8 : Paper :=
  { basePaper with
    embedding_status := "completed",
    rlhf_score := some (123456/1000000),
    updated_at := 42 }

/-- C8 counterexample: the score-rounding post-processing step mutates
`rlhf_score` (0.123456 becomes 0.123) but leaves `updated_at` untouched,
so not every mutation bumps the timestamp. -/
theorem C8_counterexample :
    (round_similarity_scores_paper paperC8).updated_at = paperC8.updated_at ∧
    (round_similarity_scores_paper paperC8).rlhf_score ≠ paperC8.rlhf_score := by
  have hmag : magnitude (123456/1000000 : ℚ) = -1 :=
    magnitude_eq_of_bounds (by norm_num) (by norm_num) (by norm_num)
  have hround : round_to_3_sig_figs (123456/1000000 : ℚ) = 123/1000 := by
    simp only [round_to_3_sig_figs, round_half_even, hmag]
    norm_num [Int.floor_eq_iff]
  have hpaper : round_similarity_scores_paper paperC8 =
      { paperC8 with rlhf_score := some (123/1000 : ℚ) } := by
    unfold round_similarity_scores_paper
    rw [if_pos (show paperC8.embedding_status = "completed" from rfl)]
    show ({ paperC8 with
      rlhf_score := round_score paperC8.rlhf_score,
      weak_supervision_score := round_score paperC8.weak_supervision_score,
      diffusion_reasoning_score := round_score paperC8.diffusion_reasoning_score,
      distributed_training_score := round_score paperC8.distributed_training_score } : Paper) = _
    rw [show round_score paperC8.rlhf_score = some (123/1000 : ℚ) by
      show round_score (some (123456/1000000 : ℚ)) = _
      rw [round_score, hround]]
    rfl
  rw [hpaper]
  refine ⟨rfl, ?_⟩
  show some (123/1000 : ℚ) ≠ some (123456/1000000 : ℚ)
  intro h
  have := Option.some.inj h
  norm_num at this

/-- C8 amended: `add_error` and every `update_*_status` method set
`updated_at` to the mutation time, but the similarity-score rounding step
writes the score fields directly and leaves `updated_at` unchanged. -/
theorem C8_updated_at_bumps (p : Paper) (s : String) (now : ℕ) :
    (p.add_error s now).updated_at = now ∧
    (p.update_scraper_status s now).updated_at = now ∧
    (p.update_intro_status s now).updated_at = now ∧
    (p.update_embedding_status s now).updated_at = now ∧
    (p.update_llm_validation_status s now).updated_at = now ∧
    (p.update_llm_score_status s now).updated_at = now ∧
    (p.update_h_index_status s now).updated_at = now ∧
    (round_similarity_scores_paper p).updated_at = p.updated_at := by
  refine ⟨rfl, rfl, rfl, rfl, rfl, rfl, rfl, ?_⟩
  unfold round_similarity_scores_paper
  split <;> rfl

/-- A paper carrying a `last_generated` date. -/
def paperC9 : Paper := { basePaper with last_generated := some "2025-10-01" }

/-- C9 counterexample: the `papers` table has no `last_generated` column,
so saving and re-loading a paper with a non-null `last_generated` does not
return an equal paper. -/
theorem C9_counterexample : load_paper (save_paper paperC9) ≠ paperC9 := by
  intro h
  have := congrArg Paper.last_generated h
  simp [load_paper, save_paper, paperC9] at this

/-- C9 amended: save-then-load restores every field except
`last_generated`, which always comes back as `none`; papers whose
`last_generated` is already `none` round-trip exactly. -/
theorem C9_round_trip (p : Paper) :
    load_paper (save_paper p) = { p with last_generated := none } ∧
    (p.last_generated = none → load_paper (save_paper p) = p) := by
  refine ⟨rfl, fun h => ?_⟩
  show ({ p with last_generated := none } : Paper) = p
  rw [← h]

/-- C9 amended witness: a paper without a `last_generated` date
round-trips exactly through save and load. -/
theorem C9_round_trip_witness : load_paper (save_paper basePaper) = basePaper :=
  (C9_round_trip basePaper).2 rfl

/-! ## Order properties of rounding to three significant figures. -/

theorem round_half_even_le (q : ℚ) : (round_half_even q : ℚ) ≤ q + 1/2 := by
  simp only [round_half_even]
  split_ifs <;> push_cast <;>
    linarith [Int.floor_le q, Int.lt_floor_add_one q]

theorem le_round_half_even (q : ℚ) : q - 1/2 ≤ (round_half_even q : ℚ) := by
  simp only [round_half_even]
  split_ifs <;> push_cast <;>
    linarith [Int.floor_le q, Int.lt_floor_add_one q]

theorem round_half_even_mono {a b : ℚ} (hab : a ≤ b) :
    round_half_even a ≤ round_half_even b := by
  rcases lt_or_eq_of_le (Int.floor_le_floor hab) with hf | hf
  · have ha : round_half_even a ≤ ⌊a⌋ + 1 := by
      simp only [round_half_even]; split_ifs <;> omega
    have hb : ⌊b⌋ ≤ round_half_even b := by
      simp only [round_half_even]; split_ifs <;> omega
    omega
  · simp only [round_half_even, ← hf]
    have h1 : (⌊a⌋ : ℚ) ≤ a := Int.floor_le a
    split_ifs <;> first | omega | linarith

theorem round_half_even_intCast (n : ℤ) : round_half_even (n : ℚ) = n := by
  simp only [round_half_even, Int.floor_intCast, sub_self]
  norm_num

theorem round_half_even_neg (q : ℚ) : round_half_even (-q) = -round_half_even q := by
  rcases eq_or_ne ((⌊q⌋ : ℚ)) q with hq | hq
  · rw [← hq, show -((⌊q⌋ : ℚ)) = ((-⌊q⌋ : ℤ) : ℚ) by push_cast; ring,
      round_half_even_intCast, round_half_even_intCast]
  · have hlt : (⌊q⌋ : ℚ) < q := lt_of_le_of_ne (Int.floor_le q) hq
    have hfl : ⌊-q⌋ = -⌊q⌋ - 1 := by
      rw [Int.floor_eq_iff]
      constructor <;> push_cast <;>
        [linarith [Int.lt_floor_add_one q]; linarith]
    simp only [round_half_even, hfl]
    push_cast
    split_ifs <;> first | omega | linarith

theorem magnitude_neg (q : ℚ) : magnitude (-q) = magnitude q := by
  simp [magnitude]

theorem round_to_3_sig_figs_zero : round_to_3_sig_figs 0 = 0 := by
  simp [round_to_3_sig_figs]

theorem round_to_3_sig_figs_neg (q : ℚ) :
    round_to_3_sig_figs (-q) = -round_to_3_sig_figs q := by
  rcases eq_or_ne q 0 with rfl | hq
  · simp [round_to_3_sig_figs]
  · simp only [round_to_3_sig_figs, if_neg hq, if_neg (neg_ne_zero.mpr hq), magnitude_neg]
    rw [neg_mul, round_half_even_neg]
    push_cast
    ring

theorem round_to_3_sig_figs_bounds {q : ℚ} (hq : 0 < q) :
    (10 : ℚ) ^ magnitude q ≤ round_to_3_sig_figs q ∧
      round_to_3_sig_figs q ≤ (10 : ℚ) ^ (magnitude q + 1) := by
  have h10 : (0 : ℚ) < (10 : ℚ) ^ (2 - magnitude q) := zpow_pos (by norm_num) _
  have hm1 : (10 : ℚ) ^ magnitude q ≤ q := by
    have := Int.zpow_log_le_self (b := 10) (R := ℚ) (by norm_num) hq
    rw [magnitude, abs_of_pos hq]
    exact_mod_cast this
  have hm2 : q < (10 : ℚ) ^ (magnitude q + 1) := by
    have := Int.lt_zpow_succ_log_self (b := 10) (R := ℚ) (by norm_num) q
    rw [magnitude, abs_of_pos hq]
    exact_mod_cast this
  have hx1 : (100 : ℚ) ≤ q * (10 : ℚ) ^ (2 - magnitude q) := by
    have hmul := mul_le_mul_of_nonneg_right hm1 (le_of_lt h10)
    have hpow : (10 : ℚ) ^ magnitude q * (10 : ℚ) ^ (2 - magnitude q) = 100 := by
      rw [← zpow_add₀ (by norm_num : (10 : ℚ) ≠ 0)]
      rw [show magnitude q + (2 - magnitude q) = 2 by ring]
      norm_num
    linarith
  have hx2 : q * (10 : ℚ) ^ (2 - magnitude q) < 1000 := by
    have hmul := mul_lt_mul_of_pos_right hm2 h10
    have hpow : (10 : ℚ) ^ (magnitude q + 1) * (10 : ℚ) ^ (2 - magnitude q) = 1000 := by
      rw [← zpow_add₀ (by norm_num : (10 : ℚ) ≠ 0)]
      rw [show magnitude q + 1 + (2 - magnitude q) = 3 by ring]
      norm_num
    linarith
  have hr1 : (100 : ℚ) ≤ (round_half_even (q * (10 : ℚ) ^ (2 - magnitude q)) : ℚ) := by
    have h99 : (99 : ℚ) < (round_half_even (q * (10 : ℚ) ^ (2 - magnitude q)) : ℚ) := by
      linarith [le_round_half_even (q * (10 : ℚ) ^ (2 - magnitude q))]
    have h99i : (99 : ℤ) < round_half_even (q * (10 : ℚ) ^ (2 - magnitude q)) := by
      exact_mod_cast h99
    have : (100 : ℤ) ≤ round_half_even (q * (10 : ℚ) ^ (2 - magnitude q)) := by omega
    exact_mod_cast this
  have hr2 : (round_half_even (q * (10 : ℚ) ^ (2 - magnitude q)) : ℚ) ≤ 1000 := by
    have h1001 : (round_half_even (q * (10 : ℚ) ^ (2 - magnitude q)) : ℚ) < 1001 := by
      linarith [round_half_even_le (q * (10 : ℚ) ^ (2 - magnitude q))]
    have h1001i : round_half_even (q * (10 : ℚ) ^ (2 - magnitude q)) < (1001 : ℤ) := by
      exact_mod_cast h1001
    have : round_half_even (q * (10 : ℚ) ^ (2 - magnitude q)) ≤ (1000 : ℤ) := by omega
    exact_mod_cast this
  have hF1 : (10 : ℚ) ^ magnitude q = 100 / (10 : ℚ) ^ (2 - magnitude q) := by
    rw [eq_div_iff (ne_of_gt h10), ← zpow_add₀ (by norm_num : (10 : ℚ) ≠ 0)]
    rw [show magnitude q + (2 - magnitude q) = 2 by ring]
    norm_num
  have hF2 : (10 : ℚ) ^ (magnitude q + 1) = 1000 / (10 : ℚ) ^ (2 - magnitude q) := by
    rw [eq_div_iff (ne_of_gt h10), ← zpow_add₀ (by norm_num : (10 : ℚ) ≠ 0)]
    rw [show magnitude q + 1 + (2 - magnitude q) = 3 by ring]
    norm_num
  have hqne : ¬ q = 0 := ne_of_gt hq
  simp only [round_to_3_sig_figs, if_neg hqne]
  constructor
  · rw [hF1]
    gcongr
  · rw [hF2]
    gcongr

theorem round_to_3_sig_figs_pos {q : ℚ} (hq : 0 < q) : 0 < round_to_3_sig_figs q :=
  lt_of_lt_of_le (zpow_pos (by norm_num) _) (round_to_3_sig_figs_bounds hq).1

/-- Rounding to three significant figures is monotone, so it preserves
every non-strict ordering among scores. -/
theorem round_to_3_sig_figs_mono : Monotone round_to_3_sig_figs := by
  have hpos : ∀ a b : ℚ, 0 < a → a ≤ b →
      round_to_3_sig_figs a ≤ round_to_3_sig_figs b := by
    intro a b ha hab
    have hb : 0 < b := lt_of_lt_of_le ha hab
    have hm : magnitude a ≤ magnitude b := by
      rw [magnitude, magnitude, abs_of_pos ha, abs_of_pos hb]
      exact Int.log_mono_right ha hab
    rcases eq_or_lt_of_le hm with hm' | hm'
    · have hane : ¬ a = 0 := ne_of_gt ha
      have hbne : ¬ b = 0 := ne_of_gt hb
      simp only [round_to_3_sig_figs, if_neg hane, if_neg hbne, ← hm']
      have hF : (0 : ℚ) < (10 : ℚ) ^ (2 - magnitude a) := zpow_pos (by norm_num) _
      have hmono := round_half_even_mono
        (mul_le_mul_of_nonneg_right hab (le_of_lt hF))
      have hcast : (round_half_even (a * (10 : ℚ) ^ (2 - magnitude a)) : ℚ) ≤
          (round_half_even (b * (10 : ℚ) ^ (2 - magnitude a)) : ℚ) := by
        exact_mod_cast hmono
      gcongr
    · have h1 := (round_to_3_sig_figs_bounds ha).2
      have h2 := (round_to_3_sig_figs_bounds hb).1
      have h3 : (10 : ℚ) ^ (magnitude a + 1) ≤ (10 : ℚ) ^ magnitude b :=
        zpow_le_zpow_right₀ (by norm_num) (by omega)
      linarith
  intro a b hab
  rcases lt_trichotomy a 0 with ha | ha | ha
  · rcases lt_trichotomy b 0 with hb | hb | hb
    · have h := hpos (-b) (-a) (by linarith) (by linarith)
      have ea := round_to_3_sig_figs_neg (-a)
      have eb := round_to_3_sig_figs_neg (-b)
      rw [neg_neg] at ea eb
      linarith
    · subst hb
      have h := round_to_3_sig_figs_pos (show (0 : ℚ) < -a by linarith)
      have ea := round_to_3_sig_figs_neg (-a)
      rw [neg_neg] at ea
      rw [round_to_3_sig_figs_zero]
      linarith
    · have h1 := round_to_3_sig_figs_pos (show (0 : ℚ) < -a by linarith)
      have h2 := round_to_3_sig_figs_pos hb
      have ea := round_to_3_sig_figs_neg (-a)
      rw [neg_neg] at ea
      linarith
  · subst ha
    rw [round_to_3_sig_figs_zero]
    rcases eq_or_lt_of_le hab with rfl | hb
    · rw [round_to_3_sig_figs_zero]
    · exact le_of_lt (round_to_3_sig_figs_pos hb)
  · exact hpos a b ha hab

/-- The scan of `max_by_value` returns an element of the scanned list. -/
theorem max_by_value_mem : ∀ (best : String × ℚ) (xs : List (String × ℚ)),
    max_by_value best xs ∈ best :: xs
  | _, [] => List.mem_cons_self _ _
  | best, x :: xs => by
    unfold max_by_value
    have h := max_by_value_mem (if best.2 < x.2 then x else best) xs
    rcases List.mem_cons.mp h with h | h
    · rw [h]
      split_ifs
      · exact List.mem_cons_of_mem _ (List.mem_cons_self _ _)
      · exact List.mem_cons_self _ _
    · exact List.mem_cons_of_mem _ (List.mem_cons_of_mem _ h)

/-- The scan of `max_by_value` dominates every scanned value. -/
theorem max_by_value_ge : ∀ (best : String × ℚ) (xs : List (String × ℚ))
    (y : String × ℚ), y ∈ best :: xs → y.2 ≤ (max_by_value best xs).2
  | best, [], y, hy => by
    rcases List.mem_cons.mp hy with rfl | hy
    · exact le_refl _
    · exact absurd hy (List.not_mem_nil y)
  | best, x :: xs, y, hy => by
    unfold max_by_value
    have hbest : best.2 ≤ (if best.2 < x.2 then x else best).2 := by
      split_ifs with h
      · exact le_of_lt h
      · exact le_refl _
    have hx : x.2 ≤ (if best.2 < x.2 then x else best).2 := by
      split_ifs with h
      · exact le_refl _
      · exact le_of_not_lt h
    rcases List.mem_cons.mp hy with rfl | hy'
    · exact le_trans hbest
        (max_by_value_ge _ xs _ (List.mem_cons_self _ _))
    rcases List.mem_cons.mp hy' with rfl | hy''
    · exact le_trans hx
        (max_by_value_ge _ xs _ (List.mem_cons_self _ _))
    · exact max_by_value_ge _ xs y (List.mem_cons_of_mem _ hy'')

/-- The four topic names of the embedding stage, in the order of
`self.topics`. -/
def embedding_topic_names : List String :=
  ["Reinforcement Learning from Human Feedback", "Weak Supervision",
   "Diffusion-based Reasoning", "Distributed Training"]

/-- The similarity-score field that `_process_batch` assigns for each
topic name (spec-side accessor used to state C10). -/
def stored_topic_score (p : Paper) (topic : String) : Option ℚ :=
  if topic = "Reinforcement Learning from Human Feedback" then p.rlhf_score
  else if topic = "Weak Supervision" then p.weak_supervision_score
  else if topic = "Diffusion-based Reasoning" then p.diffusion_reasoning_score
  else if topic = "Distributed Training" then p.distributed_training_score
  else none

theorem round_score_eq_map (o : Option ℚ) :
    round_score o = o.map round_to_3_sig_figs := by
  cases o <;> rfl

/-- On a completed paper, the rounding step rounds exactly the stored
per-topic scores. -/
theorem stored_topic_score_round (p : Paper) (hp : p.embedding_status = "completed")
    (name : String) :
    stored_topic_score (round_similarity_scores_paper p) name =
      (stored_topic_score p name).map round_to_3_sig_figs := by
  unfold round_similarity_scores_paper
  rw [if_pos hp]
  unfold stored_topic_score
  split_ifs <;> simp [round_score_eq_map]

/-- The rounding step does not change `highest_similarity_topic`. -/
theorem round_similarity_scores_paper_highest (p : Paper) :
    (round_similarity_scores_paper p).highest_similarity_topic =
      p.highest_similarity_topic := by
  unfold round_similarity_scores_paper
  split <;> rfl

/-- C10: for every paper the embedding stage completes,
`highest_similarity_topic` is one of the four configured topic names, the
stored score of that topic dominates every other stored topic score, and —
because rounding to three significant figures is monotone — the same
dominance still holds after the stage's rounding post-processing. -/
theorem C10_highest_topic_dominates (s : TopicScores) (now : ℕ) (p : Paper) :
    (process_paper_embedding_success s now p).embedding_status = "completed" ∧
    ∃ t v,
      (process_paper_embedding_success s now p).highest_similarity_topic = some t ∧
      t ∈ embedding_topic_names ∧
      stored_topic_score (process_paper_embedding_success s now p) t = some v ∧
      (∀ name w,
        stored_topic_score (process_paper_embedding_success s now p) name = some w →
          w ≤ v) ∧
      (round_similarity_scores_paper
          (process_paper_embedding_success s now p)).highest_similarity_topic = some t ∧
      stored_topic_score
          (round_similarity_scores_paper (process_paper_embedding_success s now p)) t
        = some (round_to_3_sig_figs v) ∧
      (∀ name w,
        stored_topic_score
            (round_similarity_scores_paper (process_paper_embedding_success s now p)) name
          = some w → w ≤ round_to_3_sig_figs v) := by
  set q := process_paper_embedding_success s now p with hq
  have hstatus : q.embedding_status = "completed" := rfl
  set M := max_by_value ("Reinforcement Learning from Human Feedback", s.rlhf)
    [("Weak Supervision", s.weak_supervision),
     ("Diffusion-based Reasoning", s.diffusion_reasoning),
     ("Distributed Training", s.distributed_training)] with hM
  have hmem : M ∈ scores_list s := max_by_value_mem _ _
  have hge : ∀ y ∈ scores_list s, y.2 ≤ M.2 := fun y hy => max_by_value_ge _ _ y hy
  have hhighest : q.highest_similarity_topic = some M.1 := rfl
  have hfield : M.1 ∈ embedding_topic_names ∧ stored_topic_score q M.1 = some M.2 := by
    simp only [scores_list, List.mem_cons, List.not_mem_nil, or_false] at hmem
    rcases hmem with h | h | h | h <;>
      rw [h] <;>
      exact ⟨by simp [embedding_topic_names], by simp [stored_topic_score, hq,
        process_paper_embedding_success, Paper.update_embedding_status]⟩
  have hdom : ∀ name w, stored_topic_score q name = some w → w ≤ M.2 := by
    intro name w hw
    unfold stored_topic_score at hw
    split_ifs at hw with h1 h2 h3 h4
    · rw [show q.rlhf_score = some s.rlhf from rfl] at hw
      rw [← Option.some.inj hw]
      exact hge ("Reinforcement Learning from Human Feedback", s.rlhf)
        (by simp [scores_list])
    · rw [show q.weak_supervision_score = some s.weak_supervision from rfl] at hw
      rw [← Option.some.inj hw]
      exact hge ("Weak Supervision", s.weak_supervision) (by simp [scores_list])
    · rw [show q.diffusion_reasoning_score = some s.diffusion_reasoning from rfl] at hw
      rw [← Option.some.inj hw]
      exact hge ("Diffusion-based Reasoning", s.diffusion_reasoning)
        (by simp [scores_list])
    · rw [show q.distributed_training_score = some s.distributed_training from rfl] at hw
      rw [← Option.some.inj hw]
      exact hge ("Distributed Training", s.distributed_training) (by simp [scores_list])
  refine ⟨hstatus, M.1, M.2, hhighest, hfield.1, hfield.2, hdom, ?_, ?_, ?_⟩
  · rw [round_similarity_scores_paper_highest]
    exact hhighest
  · rw [stored_topic_score_round q hstatus, hfield.2]
    rfl
  · intro name w hw
    rw [stored_topic_score_round q hstatus] at hw
    obtain ⟨w', hw', rfl⟩ := Option.map_eq_some'.mp hw
    exact round_to_3_sig_figs_mono (hdom name w' hw')
